import Mathlib

set_option linter.unusedVariables false

/-
Shallow embedding of the repository MishiJeon/OTTER, whose single source file
is src/projects/Lab 4/src/IBuffer.h: an abstract wrapper class IBuffer around
an OpenGL buffer object, with enums BufferType and BufferUsage, inline
accessors, a template upload overload, and declarations of LoadData, Bind,
UnBind, constructor and destructor (whose bodies live in a .cpp that is not
part of the repository; those operations are modelled from the spec, as noted
on each definition).
Machine integers: the C++ fields and parameters have type size_t; values fit
in 64 bits and the only arithmetic that can overflow is the multiplication in
GetTotalSize, which is taken modulo 2 to the 64.
-/

/-- Wrap-around modulus of the C++ type size_t (64-bit). -/
def sizeTMod : Nat := 2 ^ 64

/-- OpenGL constant GL_ARRAY_BUFFER from glad/glad.h. -/
def GL_ARRAY_BUFFER : Nat := 0x8892

/-- OpenGL constant GL_ELEMENT_ARRAY_BUFFER from glad/glad.h. -/
def GL_ELEMENT_ARRAY_BUFFER : Nat := 0x8893

/-- OpenGL constant GL_OUT_OF_MEMORY from glad/glad.h. -/
def GL_OUT_OF_MEMORY : Nat := 0x0505

/-- The enum class BufferType of IBuffer.h: the possible buffer kinds. -/
inductive BufferType where
  | Vertex
  | Index
deriving DecidableEq

/-- Underlying OpenGL enum value of each BufferType member, as assigned in IBuffer.h. -/
def BufferType.toGL : BufferType → Nat
  | .Vertex => GL_ARRAY_BUFFER
  | .Index => GL_ELEMENT_ARRAY_BUFFER

/-- The enum class BufferUsage of IBuffer.h: the nine usage hints. -/
inductive BufferUsage where
  | StreamDraw
  | StreamRead
  | StreamCopy
  | StaticDraw
  | StaticRead
  | StaticCopy
  | DynamicDraw
  | DynamicRead
  | DynamicCopy
deriving DecidableEq

/-- Global OpenGL driver state visible to this component: the handle allocator,
the per-handle data stores, the two per-kind binding slots (0 means empty), the
driver's out-of-band error channel, and a flag describing whether the driver
will hit out-of-memory on the next upload (a driver-side failure condition,
outside the component's control). -/
structure GLState where
  nextHandle : Nat
  bufferData : Nat → List Nat
  arrayBufferBinding : Nat
  elementArrayBufferBinding : Nat
  pendingError : Option Nat
  oomOnNextUpload : Bool

/-- The driver state at context creation: no buffers allocated (handles are
issued starting from 1, so every issued handle is nonzero), both binding slots
empty, no pending error, no failure scheduled. -/
def GLState.initial : GLState :=
  { nextHandle := 1
    bufferData := fun _ => []
    arrayBufferBinding := 0
    elementArrayBufferBinding := 0
    pendingError := none
    oomOnNextUpload := false }

/-- Read the binding slot for a buffer kind. -/
def GLState.getBinding (s : GLState) : BufferType → Nat
  | .Vertex => s.arrayBufferBinding
  | .Index => s.elementArrayBufferBinding

/-- Write the binding slot for a buffer kind. -/
def GLState.setBinding (s : GLState) (t : BufferType) (h : Nat) : GLState :=
  match t with
  | .Vertex => { s with arrayBufferBinding := h }
  | .Index => { s with elementArrayBufferBinding := h }

/-- Modelled from the spec: the driver call that allocates one native buffer
resource (the constructor body in IBuffer.cpp is not part of the repository).
The spec states that construction allocates one native resource and yields a
nonzero-looking handle; the allocator hands out the next fresh handle. -/
def glGenBuffer (s : GLState) : Nat × GLState :=
  (s.nextHandle, { s with nextHandle := s.nextHandle + 1 })

/-- Modelled from the spec: the driver call glNamedBufferData named in the
doc comment of IBuffer.h (the LoadData body in IBuffer.cpp is not part of the
repository). The spec states that the entire data store of the named buffer is
replaced - full overwrite, not appended or patched - and that a driver-side
failure such as out-of-memory is reported only on the driver's own out-of-band
error channel, never through this interface: on failure the store is left
unchanged and the error code is recorded in the driver state. -/
def glNamedBufferData (s : GLState) (handle : Nat) (size : Nat) (data : List Nat)
    (usage : BufferUsage) : GLState :=
  if s.oomOnNextUpload then
    { s with pendingError := some GL_OUT_OF_MEMORY, oomOnNextUpload := false }
  else
    { s with bufferData := fun h => if h = handle then data.take size else s.bufferData h }

/-- The class IBuffer of IBuffer.h: its five protected fields. -/
structure IBuffer where
  _elementSize : Nat
  _elementCount : Nat
  _handle : Nat
  _usage : BufferUsage
  _type : BufferType
deriving DecidableEq

/-- Inline accessor GetElementCount of IBuffer.h: returns _elementCount. -/
def IBuffer.GetElementCount (b : IBuffer) : Nat := b._elementCount

/-- Inline accessor GetElementSize of IBuffer.h: returns _elementSize. -/
def IBuffer.GetElementSize (b : IBuffer) : Nat := b._elementSize

/-- Inline accessor GetTotalSize of IBuffer.h: returns _elementCount * _elementSize,
computed in size_t arithmetic, hence reduced modulo 2 to the 64. -/
def IBuffer.GetTotalSize (b : IBuffer) : Nat :=
  (b._elementCount * b._elementSize) % sizeTMod

/-- Inline accessor GetType of IBuffer.h: returns _type. -/
def IBuffer.GetType (b : IBuffer) : BufferType := b._type

/-- Inline accessor GetUsage of IBuffer.h: returns _usage. -/
def IBuffer.GetUsage (b : IBuffer) : BufferUsage := b._usage

/-- Inline accessor GetHandle of IBuffer.h: returns _handle. -/
def IBuffer.GetHandle (b : IBuffer) : Nat := b._handle

/-- Modelled from the spec: the protected constructor IBuffer(type, usage)
(its body in IBuffer.cpp is not part of the repository). The spec states that
construction stores the two arguments, allocates one native resource whose
handle is stored, and that GetElementCount and GetElementSize start at zero. -/
def IBuffer.construct (type : BufferType) (usage : BufferUsage) (s : GLState) :
    IBuffer × GLState :=
  let hs := glGenBuffer s
  ({ _elementSize := 0
     _elementCount := 0
     _handle := hs.fst
     _usage := usage
     _type := type }, hs.snd)

/-- Modelled from the spec: the virtual member LoadData(data, elementSize,
elementCount) (its body in IBuffer.cpp is not part of the repository; the
header documents that it uploads via the bindless call glNamedBufferData).
The spec states that the entire native resource contents are replaced with the
elementSize * elementCount bytes of data and that _elementSize and
_elementCount are updated to match the arguments; no value is returned and no
error is surfaced. -/
def IBuffer.LoadData (b : IBuffer) (data : List Nat) (elementSize elementCount : Nat)
    (s : GLState) : IBuffer × GLState :=
  ({ b with _elementSize := elementSize, _elementCount := elementCount },
   glNamedBufferData s b._handle (elementSize * elementCount) data b._usage)

/-- The template member LoadData of IBuffer.h - this body is in the header:
it passes the data pointer reinterpreted as a byte span, the compile-time size
of one element as the element size, and the count, to the byte-span overload
through the qualified call of IBuffer.LoadData. The compile-time sizeof of the
element type is the parameter sizeofT. -/
def IBuffer.LoadDataT (b : IBuffer) (sizeofT : Nat) (data : List Nat) (count : Nat)
    (s : GLState) : IBuffer × GLState :=
  IBuffer.LoadData b data sizeofT count s

/-- Modelled from the spec: the virtual member Bind() (its body in IBuffer.cpp
is not part of the repository). The spec states that it makes this buffer the
active resource of the binding slot of its kind. -/
def IBuffer.Bind (b : IBuffer) (s : GLState) : GLState :=
  s.setBinding b._type b._handle

/-- Modelled from the spec: the static member UnBind(type) (its body in
IBuffer.cpp is not part of the repository). The spec states that it clears
whatever buffer is active in the binding slot of the given kind. -/
def IBuffer.UnBind (type : BufferType) (s : GLState) : GLState :=
  s.setBinding type 0

/-- A concrete class derived from IBuffer, for dispatch questions: its base
subobject together with an optional override of the virtual byte-span
LoadData. -/
structure DerivedBuffer where
  base : IBuffer
  loadDataOverride : Option (IBuffer → List Nat → Nat → Nat → GLState → IBuffer × GLState)

/-- A virtual (unqualified) call of LoadData on a derived object: dynamic
dispatch selects the override when the derived class provides one. -/
def DerivedBuffer.virtualLoadData (d : DerivedBuffer) (data : List Nat)
    (elementSize elementCount : Nat) (s : GLState) : IBuffer × GLState :=
  match d.loadDataOverride with
  | some f => f d.base data elementSize elementCount s
  | none => IBuffer.LoadData d.base data elementSize elementCount s

/-- The inherited template member LoadData invoked on a derived object: its
body in IBuffer.h calls the byte-span overload through the qualified name
IBuffer.LoadData, which in C++ dispatches statically to the base
implementation. -/
def DerivedBuffer.LoadDataT (d : DerivedBuffer) (sizeofT : Nat) (data : List Nat)
    (count : Nat) (s : GLState) : IBuffer × GLState :=
  IBuffer.LoadDataT d.base sizeofT data count s

/-- Helper: reading a binding slot right after writing it yields the written
handle. -/
theorem getBinding_setBinding (s : GLState) (t : BufferType) (h : Nat) :
    (s.setBinding t h).getBinding t = h := by
  cases t <;> rfl

/-- C1: a LoadData call fully replaces the stored contents (no append, no
patch) and sets the stored element size and element count to exactly its
arguments; after a second LoadData call the accessors report only the second
call's elementSize and elementCount, with no residue from the first call.
Spec-modelled: the LoadData body is not in the repository. The hypothesis says
the driver has no out-of-memory failure scheduled, so the upload lands. -/
theorem loadData_replaces (b : IBuffer) (data1 : List Nat) (sz1 c1 : Nat)
    (data2 : List Nat) (sz2 c2 : Nat) (s : GLState)
    (hok : s.oomOnNextUpload = false) :
    (IBuffer.LoadData b data1 sz1 c1 s).fst.GetElementSize = sz1 ∧
    (IBuffer.LoadData b data1 sz1 c1 s).fst.GetElementCount = c1 ∧
    (IBuffer.LoadData b data1 sz1 c1 s).snd.bufferData b._handle
      = data1.take (sz1 * c1) ∧
    ((IBuffer.LoadData b data1 sz1 c1 s).fst.LoadData data2 sz2 c2
      (IBuffer.LoadData b data1 sz1 c1 s).snd).fst.GetElementSize = sz2 ∧
    ((IBuffer.LoadData b data1 sz1 c1 s).fst.LoadData data2 sz2 c2
      (IBuffer.LoadData b data1 sz1 c1 s).snd).fst.GetElementCount = c2 ∧
    ((IBuffer.LoadData b data1 sz1 c1 s).fst.LoadData data2 sz2 c2
      (IBuffer.LoadData b data1 sz1 c1 s).snd).snd.bufferData b._handle
      = data2.take (sz2 * c2) := by
  simp [IBuffer.LoadData, glNamedBufferData, hok, IBuffer.GetElementSize,
    IBuffer.GetElementCount]

/-- Witness for C1 at a concrete buffer, payloads and driver state. -/
theorem loadData_replaces_witness :
    GLState.initial.oomOnNextUpload = false ∧
    ((IBuffer.LoadData ⟨0, 0, 1, BufferUsage.StaticDraw, BufferType.Vertex⟩
        [10, 20] 1 2 GLState.initial).fst.GetElementSize = 1 ∧
     (IBuffer.LoadData ⟨0, 0, 1, BufferUsage.StaticDraw, BufferType.Vertex⟩
        [10, 20] 1 2 GLState.initial).fst.GetElementCount = 2 ∧
     (IBuffer.LoadData ⟨0, 0, 1, BufferUsage.StaticDraw, BufferType.Vertex⟩
        [10, 20] 1 2 GLState.initial).snd.bufferData 1 = [10, 20].take (1 * 2) ∧
     ((IBuffer.LoadData ⟨0, 0, 1, BufferUsage.StaticDraw, BufferType.Vertex⟩
        [10, 20] 1 2 GLState.initial).fst.LoadData [7, 8, 9] 1 3
       (IBuffer.LoadData ⟨0, 0, 1, BufferUsage.StaticDraw, BufferType.Vertex⟩
        [10, 20] 1 2 GLState.initial).snd).fst.GetElementSize = 1 ∧
     ((IBuffer.LoadData ⟨0, 0, 1, BufferUsage.StaticDraw, BufferType.Vertex⟩
        [10, 20] 1 2 GLState.initial).fst.LoadData [7, 8, 9] 1 3
       (IBuffer.LoadData ⟨0, 0, 1, BufferUsage.StaticDraw, BufferType.Vertex⟩
        [10, 20] 1 2 GLState.initial).snd).fst.GetElementCount = 3 ∧
     ((IBuffer.LoadData ⟨0, 0, 1, BufferUsage.StaticDraw, BufferType.Vertex⟩
        [10, 20] 1 2 GLState.initial).fst.LoadData [7, 8, 9] 1 3
       (IBuffer.LoadData ⟨0, 0, 1, BufferUsage.StaticDraw, BufferType.Vertex⟩
        [10, 20] 1 2 GLState.initial).snd).snd.bufferData 1
       = [7, 8, 9].take (1 * 3)) :=
  ⟨rfl, loadData_replaces ⟨0, 0, 1, BufferUsage.StaticDraw, BufferType.Vertex⟩
    [10, 20] 1 2 [7, 8, 9] 1 3 GLState.initial rfl⟩

/-- C2 counterexample: GetTotalSize does not always equal the mathematical
product of GetElementSize and GetElementCount. At the buffer whose stored
element size is 2 to the 63 and whose stored element count is 2 (both valid
size_t values, reachable through LoadData), the size_t multiplication inside
GetTotalSize wraps to 0 while the product of the accessor values is 2 to
the 64. -/
theorem getTotalSize_product_counterexample :
    ¬ ((IBuffer.mk (2 ^ 63) 2 1 BufferUsage.StaticDraw BufferType.Vertex).GetTotalSize
      = (IBuffer.mk (2 ^ 63) 2 1 BufferUsage.StaticDraw BufferType.Vertex).GetElementSize
        * (IBuffer.mk (2 ^ 63) 2 1 BufferUsage.StaticDraw BufferType.Vertex).GetElementCount) := by
  decide

/-- C2 amended: GetTotalSize returns the product of GetElementSize and
GetElementCount reduced modulo 2 to the 64 (the size_t width), hence the exact
product whenever that product fits in size_t; in particular, after
LoadData(data, 4, 10), GetElementSize is 4, GetElementCount is 10 and
GetTotalSize is 40. -/
theorem getTotalSize_eq_product_mod (b : IBuffer) (data : List Nat) (s : GLState) :
    b.GetTotalSize = (b.GetElementSize * b.GetElementCount) % sizeTMod ∧
    (IBuffer.LoadData b data 4 10 s).fst.GetElementSize = 4 ∧
    (IBuffer.LoadData b data 4 10 s).fst.GetElementCount = 10 ∧
    (IBuffer.LoadData b data 4 10 s).fst.GetTotalSize = 40 := by
  refine ⟨?_, rfl, rfl, ?_⟩
  · simp [IBuffer.GetTotalSize, IBuffer.GetElementSize, IBuffer.GetElementCount,
      Nat.mul_comm]
  · simp [IBuffer.LoadData, IBuffer.GetTotalSize, sizeTMod]

/-- C3: the generic template overload LoadData(data, count) is behaviourally
equal to the byte-span form LoadData(data, sizeofT, count): it passes the
compile-time element size through and delegates, introducing no distinct
behaviour. This body is in the header. -/
theorem loadDataT_delegates (b : IBuffer) (sizeofT : Nat) (data : List Nat)
    (count : Nat) (s : GLState) :
    IBuffer.LoadDataT b sizeofT data count s
      = IBuffer.LoadData b data sizeofT count s := rfl

/-- C4: immediately after construction with a kind and a usage hint, GetType
returns the kind argument, GetUsage returns the usage-hint argument, the
native handle is nonzero, and GetElementCount and GetElementSize are zero.
Spec-modelled: the constructor body is not in the repository. The hypothesis
says the driver's handle allocator is past 0, as it is from context creation
on (GLState.initial starts it at 1), which is how OpenGL names are nonzero. -/
theorem construct_init (type : BufferType) (usage : BufferUsage) (s : GLState)
    (hpos : 0 < s.nextHandle) :
    (IBuffer.construct type usage s).fst.GetType = type ∧
    (IBuffer.construct type usage s).fst.GetUsage = usage ∧
    (IBuffer.construct type usage s).fst.GetHandle ≠ 0 ∧
    (IBuffer.construct type usage s).fst.GetElementCount = 0 ∧
    (IBuffer.construct type usage s).fst.GetElementSize = 0 := by
  refine ⟨rfl, rfl, ?_, rfl, rfl⟩
  simp [IBuffer.construct, glGenBuffer, IBuffer.GetHandle]
  omega

/-- Witness for C4 at a concrete kind, usage hint and driver state. -/
theorem construct_init_witness :
    0 < GLState.initial.nextHandle ∧
    ((IBuffer.construct BufferType.Index BufferUsage.DynamicDraw GLState.initial).fst.GetType
      = BufferType.Index ∧
     (IBuffer.construct BufferType.Index BufferUsage.DynamicDraw GLState.initial).fst.GetUsage
      = BufferUsage.DynamicDraw ∧
     (IBuffer.construct BufferType.Index BufferUsage.DynamicDraw GLState.initial).fst.GetHandle
      ≠ 0 ∧
     (IBuffer.construct BufferType.Index BufferUsage.DynamicDraw GLState.initial).fst.GetElementCount
      = 0 ∧
     (IBuffer.construct BufferType.Index BufferUsage.DynamicDraw GLState.initial).fst.GetElementSize
      = 0) :=
  ⟨by decide,
   construct_init BufferType.Index BufferUsage.DynamicDraw GLState.initial (by decide)⟩

/-- C5: over the global per-kind binding-slot state, Bind() followed by
UnBind with the same kind leaves that kind's slot empty; and Bind() on A
followed by Bind() on B, for A and B of the same kind with distinct handles,
leaves B active in that slot and A no longer active.
Spec-modelled: the Bind and UnBind bodies are not in the repository. -/
theorem bind_unbind_slots (b A B : IBuffer) (s s2 : GLState)
    (hkind : A._type = B._type) (hneq : A._handle ≠ B._handle) :
    (IBuffer.UnBind b._type (IBuffer.Bind b s)).getBinding b._type = 0 ∧
    (IBuffer.Bind B (IBuffer.Bind A s2)).getBinding B._type = B._handle ∧
    (IBuffer.Bind B (IBuffer.Bind A s2)).getBinding A._type ≠ A._handle := by
  refine ⟨?_, ?_, ?_⟩
  · exact getBinding_setBinding _ b._type 0
  · exact getBinding_setBinding _ B._type B._handle
  · rw [hkind, IBuffer.Bind, getBinding_setBinding]
    exact fun h => hneq h.symm

/-- Witness for C5 at two concrete vertex buffers with handles 1 and 2. -/
theorem bind_unbind_slots_witness :
    (IBuffer.mk 0 0 1 BufferUsage.StaticDraw BufferType.Vertex)._type
      = (IBuffer.mk 0 0 2 BufferUsage.StaticDraw BufferType.Vertex)._type ∧
    (IBuffer.mk 0 0 1 BufferUsage.StaticDraw BufferType.Vertex)._handle
      ≠ (IBuffer.mk 0 0 2 BufferUsage.StaticDraw BufferType.Vertex)._handle ∧
    ((IBuffer.UnBind (IBuffer.mk 0 0 1 BufferUsage.StaticDraw BufferType.Vertex)._type
        (IBuffer.Bind (IBuffer.mk 0 0 1 BufferUsage.StaticDraw BufferType.Vertex)
          GLState.initial)).getBinding
        (IBuffer.mk 0 0 1 BufferUsage.StaticDraw BufferType.Vertex)._type = 0 ∧
     (IBuffer.Bind (IBuffer.mk 0 0 2 BufferUsage.StaticDraw BufferType.Vertex)
        (IBuffer.Bind (IBuffer.mk 0 0 1 BufferUsage.StaticDraw BufferType.Vertex)
          GLState.initial)).getBinding
        (IBuffer.mk 0 0 2 BufferUsage.StaticDraw BufferType.Vertex)._type
       = (IBuffer.mk 0 0 2 BufferUsage.StaticDraw BufferType.Vertex)._handle ∧
     (IBuffer.Bind (IBuffer.mk 0 0 2 BufferUsage.StaticDraw BufferType.Vertex)
        (IBuffer.Bind (IBuffer.mk 0 0 1 BufferUsage.StaticDraw BufferType.Vertex)
          GLState.initial)).getBinding
        (IBuffer.mk 0 0 1 BufferUsage.StaticDraw BufferType.Vertex)._type
       ≠ (IBuffer.mk 0 0 1 BufferUsage.StaticDraw BufferType.Vertex)._handle) :=
  ⟨rfl, by decide,
   bind_unbind_slots (IBuffer.mk 0 0 1 BufferUsage.StaticDraw BufferType.Vertex)
     (IBuffer.mk 0 0 1 BufferUsage.StaticDraw BufferType.Vertex)
     (IBuffer.mk 0 0 2 BufferUsage.StaticDraw BufferType.Vertex)
     GLState.initial GLState.initial rfl (by decide)⟩

/-- C6: Bind is idempotent - binding a buffer twice in a row yields exactly
the same global binding-slot state as binding it once; re-asserting the
binding of an already-bound buffer has no additional effect.
Spec-modelled: the Bind body is not in the repository. -/
theorem bind_idempotent (b : IBuffer) (s : GLState) :
    IBuffer.Bind b (IBuffer.Bind b s) = IBuffer.Bind b s := by
  unfold IBuffer.Bind GLState.setBinding
  cases b._type <;> rfl

/-- C8: LoadData reports no failure through its interface: the buffer object
handed back to the caller (and hence every accessor value) is a total
function of the arguments and is identical whether or not the driver hits a
failure condition such as out-of-memory on the upload; under such a failure
the error code lands only on the driver's out-of-band error channel, which
this component never surfaces.
Spec-modelled: the LoadData body is not in the repository. -/
theorem loadData_surfaces_no_error (b : IBuffer) (data : List Nat) (sz c : Nat)
    (s : GLState) :
    (IBuffer.LoadData b data sz c { s with oomOnNextUpload := true }).fst
      = (IBuffer.LoadData b data sz c { s with oomOnNextUpload := false }).fst ∧
    (IBuffer.LoadData b data sz c s).fst
      = { b with _elementSize := sz, _elementCount := c } ∧
    (IBuffer.LoadData b data sz c { s with oomOnNextUpload := true }).snd.pendingError
      = some GL_OUT_OF_MEMORY := by
  refine ⟨rfl, rfl, ?_⟩
  simp [IBuffer.LoadData, glNamedBufferData]

/-- C9: GetTotalSize multiplies the stored count and size in unsigned size_t
arithmetic, so whenever the mathematical product of the stored values exceeds
the maximum of size_t, the accessor returns the product reduced modulo 2 to
the 64 rather than the true byte size. -/
theorem getTotalSize_wraps (b : IBuffer)
    (hover : sizeTMod ≤ b._elementCount * b._elementSize) :
    b.GetTotalSize = (b._elementCount * b._elementSize) % sizeTMod ∧
    b.GetTotalSize ≠ b._elementCount * b._elementSize := by
  refine ⟨rfl, ?_⟩
  have hlt : (b._elementCount * b._elementSize) % sizeTMod < sizeTMod :=
    Nat.mod_lt _ (by simp [sizeTMod])
  intro h
  rw [IBuffer.GetTotalSize] at h
  omega

/-- Witness for C9 at a buffer storing element size 2 to the 63 and element
count 2, whose true byte size is 2 to the 64. -/
theorem getTotalSize_wraps_witness :
    sizeTMod ≤ (IBuffer.mk (2 ^ 63) 2 1 BufferUsage.StaticDraw BufferType.Vertex)._elementCount
      * (IBuffer.mk (2 ^ 63) 2 1 BufferUsage.StaticDraw BufferType.Vertex)._elementSize ∧
    ((IBuffer.mk (2 ^ 63) 2 1 BufferUsage.StaticDraw BufferType.Vertex).GetTotalSize
      = ((IBuffer.mk (2 ^ 63) 2 1 BufferUsage.StaticDraw BufferType.Vertex)._elementCount
        * (IBuffer.mk (2 ^ 63) 2 1 BufferUsage.StaticDraw BufferType.Vertex)._elementSize)
        % sizeTMod ∧
     (IBuffer.mk (2 ^ 63) 2 1 BufferUsage.StaticDraw BufferType.Vertex).GetTotalSize
      ≠ (IBuffer.mk (2 ^ 63) 2 1 BufferUsage.StaticDraw BufferType.Vertex)._elementCount
        * (IBuffer.mk (2 ^ 63) 2 1 BufferUsage.StaticDraw BufferType.Vertex)._elementSize) :=
  ⟨by decide,
   getTotalSize_wraps (IBuffer.mk (2 ^ 63) 2 1 BufferUsage.StaticDraw BufferType.Vertex)
     (by decide)⟩

/-- C10: the template overload invokes the byte-span LoadData through the
qualified name IBuffer.LoadData, which dispatches statically: on a derived
object carrying any override of the virtual byte-span LoadData, the template
overload still executes the base implementation - never the override - while a
virtual call on the same object would execute the override. -/
theorem loadDataT_static_dispatch (base : IBuffer)
    (f : IBuffer → List Nat → Nat → Nat → GLState → IBuffer × GLState)
    (sizeofT : Nat) (data : List Nat) (count : Nat) (s : GLState) :
    DerivedBuffer.LoadDataT ⟨base, some f⟩ sizeofT data count s
      = IBuffer.LoadData base data sizeofT count s ∧
    DerivedBuffer.virtualLoadData ⟨base, some f⟩ data sizeofT count s
      = f base data sizeofT count s :=
  ⟨rfl, rfl⟩
